import Mathlib

/-!
Shallow embedding of the security core of the agntor MCP audit server
(src/src/index.ts and src/src/server.ts): the upstream-payload
normalization into a canonical agent record, the certification predicate,
the trust-score recommendation thresholds, the audit-ticket issuance
handler, and the inbound API-key verification chain.

JavaScript conventions are made explicit: absent values are `Option`,
the `||` and `??` operators on possibly-absent values are modelled by
dedicated helpers, and effectful collaborators (the API-key store, the
upstream agent fetch, the clock) appear as explicit parameters.
-/

namespace Agntor

/-! ### Upstream (raw) agent payload shape

The upstream API returns a loosely-typed nested object
`{ id, identity: { handle, address }, profile: { organization, version,
metadata }, trust: { score, level, certified }, status: { active } }`
(comment at src/src/index.ts lines 34-36). Every substructure and field
may be absent. -/

structure RawIdentity where
  handle : Option String
  address : Option String
  deriving Repr, DecidableEq

structure RawMetadata where
  name : Option String
  description : Option String
  capabilities : Option (List String)
  verified_domain : Option String
  uptime_percentage : Option Int
  avg_latency_ms : Option Int
  error_rate : Option Int
  total_transactions : Option Int
  last_active : Option Int
  max_op_value : Option Int
  allowed_mcp_servers : Option (List String)
  max_ops_per_hour : Option Int
  requires_x402_payment : Option Bool
  deriving Repr, DecidableEq

structure RawProfile where
  organization : Option String
  version : Option String
  metadata : Option RawMetadata
  deriving Repr, DecidableEq

structure RawTrust where
  score : Option Int
  level : Option String
  certified : Option Bool
  deriving Repr, DecidableEq

structure RawStatus where
  active : Option Bool
  deriving Repr, DecidableEq

structure RawAgent where
  id : Option String
  identity : Option RawIdentity
  profile : Option RawProfile
  trust : Option RawTrust
  status : Option RawStatus
  deriving Repr, DecidableEq

/-- The `{}` default used by `raw.identity ?? {}` and friends. -/
def RawIdentity.empty : RawIdentity := ⟨none, none⟩

def RawMetadata.empty : RawMetadata :=
  ⟨none, none, none, none, none, none, none, none, none, none, none, none, none⟩

def RawProfile.empty : RawProfile := ⟨none, none, none⟩

def RawTrust.empty : RawTrust := ⟨none, none, none⟩

def RawStatus.empty : RawStatus := ⟨none⟩

/-- A raw payload missing every nested substructure. -/
def RawAgent.empty : RawAgent := ⟨none, none, none, none, none⟩

/-! ### Canonical AgentRecord (src/src/types.ts shape as built in index.ts) -/

structure AgentMetadata where
  name : String
  description : String
  capabilities : List String
  verified_domain : Option String
  deriving Repr, DecidableEq

structure Certification where
  certified_at : Int
  expires_at : Int
  certifier : String
  mva_level : Int
  deriving Repr, DecidableEq

structure Health where
  uptime_percentage : Int
  avg_latency_ms : Int
  error_rate : Int
  total_transactions : Int
  last_active : Int
  deriving Repr, DecidableEq

structure Constraints where
  max_op_value : Int
  allowed_mcp_servers : List String
  max_ops_per_hour : Option Int
  requires_x402_payment : Option Bool
  deriving Repr, DecidableEq

structure AgentRecord where
  agentId : String
  auditLevel : String
  trustScore : Int
  organization : String
  metadata : AgentMetadata
  certification : Certification
  health : Health
  killSwitchActive : Bool
  constraints : Constraints
  deriving Repr, DecidableEq

/-- 365 * 24 * 60 * 60 * 1000 milliseconds: the fixed one-year
certification validity policy of src/src/index.ts line 56. -/
def millisPerYear : Int := 365 * 24 * 60 * 60 * 1000

/-- The tier table of src/src/index.ts line 58:
`trust.level === 'Platinum' ? 5 : 'Gold' ? 4 : 'Silver' ? 3 : 1`. -/
def mvaLevelOf (level : Option String) : Int :=
  if level = some "Platinum" then 5
  else if level = some "Gold" then 4
  else if level = some "Silver" then 3
  else 1

/-- JavaScript truthiness of an optional boolean (`trust.certified ?`):
absent is falsy. -/
def truthyBool (o : Option Bool) : Bool := o.getD false

/-- The mapping body of `getAgentRecord` (src/src/index.ts lines 37-74):
builds the canonical record from the raw payload, defaulting every
missing field. `now` stands for `Date.now()` at normalization time. -/
def normalizeAgent (now : Int) (agentId : String) (raw : RawAgent) : AgentRecord :=
  let identity := raw.identity.getD RawIdentity.empty
  let profile := raw.profile.getD RawProfile.empty
  let trust := raw.trust.getD RawTrust.empty
  let rstatus := raw.status.getD RawStatus.empty
  let meta := profile.metadata.getD RawMetadata.empty
  { agentId := raw.id.getD agentId
    auditLevel := trust.level.getD "Bronze"
    trustScore := trust.score.getD 0
    organization := profile.organization.getD "Unknown"
    metadata :=
      { name := (identity.handle <|> meta.name).getD "Unknown Agent"
        description := meta.description.getD ""
        capabilities := meta.capabilities.getD []
        verified_domain := meta.verified_domain }
    certification :=
      { certified_at := if truthyBool trust.certified then now else 0
        expires_at := if truthyBool trust.certified then now + millisPerYear else 0
        certifier := "agntor.com"
        mva_level := mvaLevelOf trust.level }
    health :=
      { uptime_percentage := meta.uptime_percentage.getD 0
        avg_latency_ms := meta.avg_latency_ms.getD 0
        error_rate := meta.error_rate.getD 0
        total_transactions := meta.total_transactions.getD 0
        last_active := meta.last_active.getD now }
    killSwitchActive := !(rstatus.active.getD true)
    constraints :=
      { max_op_value := meta.max_op_value.getD 10000
        allowed_mcp_servers := meta.allowed_mcp_servers.getD []
        max_ops_per_hour := meta.max_ops_per_hour
        requires_x402_payment := meta.requires_x402_payment } }

/-- `getAgentRecord` (src/src/index.ts lines 29-81): fetch the raw
payload and normalize; a fetch failure is caught and converted to `none`
(null), never propagated. The fetch outcome is an explicit parameter. -/
def getAgentRecord (now : Int) (agentId : String) (fetch : Except String RawAgent) :
    Option AgentRecord :=
  match fetch with
  | .error _ => none
  | .ok raw => some (normalizeAgent now agentId raw)

/-! ### Certification gate (is_agent_certified handler, index.ts 269-271) -/

/-- `agent.certification.expires_at > now && !agent.killSwitchActive`. -/
def isCertified (agent : AgentRecord) (now : Int) : Bool :=
  decide (agent.certification.expires_at > now) && !agent.killSwitchActive

/-! ### Trust-score recommendation (get_trust_score handler, index.ts 429) -/

inductive Recommendation where
  | approve
  | review
  | reject
  deriving Repr, DecidableEq

/-- `score >= 80 ? 'approve' : score >= 60 ? 'review' : 'reject'`. -/
def recommendationOf (score : Int) : Recommendation :=
  if score ≥ 80 then .approve
  else if score ≥ 60 then .review
  else .reject

/-! ### Ticket issuance (issue_audit_ticket handler, index.ts 470-513) -/

structure Ticket where
  agentId : String
  auditLevel : String
  constraints : Constraints
  issuedAt : Int
  expiresAt : Int
  issuer : String
  deriving Repr, DecidableEq

structure TicketIssuerConfig where
  signingKey : String
  issuer : String
  algorithm : String
  defaultValidity : Int
  deriving Repr, DecidableEq

/-- Modelled from the spec: `TicketIssuer.generateTicket` is implemented
in the external `@agntor/sdk` package, not in this repository's sources.
Per the spec (§4.4) the issuer is a pure signer: `validitySeconds`
defaults to the configured default validity when unspecified, and the
ticket carries the agent id, audit level, constraint set, issuer identity
and issuance/expiry timestamps. -/
def generateTicket (cfg : TicketIssuerConfig) (agentId auditLevel : String)
    (constraints : Constraints) (validitySeconds : Option Int) (now : Int) : Ticket :=
  { agentId := agentId
    auditLevel := auditLevel
    constraints := constraints
    issuedAt := now
    expiresAt := now + (validitySeconds.getD cfg.defaultValidity) * 1000
    issuer := cfg.issuer }

/-- The issuer configured at src/src/server.ts lines 19-24 (signing key
shown with its development default). -/
def serverTicketIssuer : TicketIssuerConfig :=
  { signingKey := "dev-secret-key-change-in-production"
    issuer := "agntor.com"
    algorithm := "HS256"
    defaultValidity := 300 }

/-- Effective lifetime of a ticket, in seconds. -/
def ticketLifetimeSeconds (t : Ticket) : Int := (t.expiresAt - t.issuedAt) / 1000

/-- JavaScript `v || d` on an optional number: absent and 0 are falsy. -/
def jsOrInt (v : Option Int) (d : Int) : Int :=
  match v with
  | none => d
  | some x => if x = 0 then d else x

/-- Structured outcome of the issue_audit_ticket handler: a ticket is
produced only in the `issued` case; the two failure cases carry no
ticket and are returned as structured content, not thrown. -/
inductive IssueResult where
  | notFound (agentId : String)
  | killSwitch (agentId : String)
  | issued (ticket : Ticket) (agentId : String) (expiresIn : Int)
  deriving Repr, DecidableEq

/-- The issue_audit_ticket handler (src/src/index.ts lines 470-513).
`lookup` is the outcome of `getAgentRecord`; `expiresIn` in the output
is `validitySeconds || 300` (line 506). -/
def issue_audit_ticket (cfg : TicketIssuerConfig) (now : Int)
    (lookup : Option AgentRecord) (agentId : String)
    (validitySeconds : Option Int) : IssueResult :=
  match lookup with
  | none => .notFound agentId
  | some agent =>
    if agent.killSwitchActive then .killSwitch agentId
    else
      .issued
        (generateTicket cfg agent.agentId agent.auditLevel agent.constraints validitySeconds now)
        agentId (jsOrInt validitySeconds 300)

/-! ### Request authentication (verifyApiKey, src/src/server.ts 33-70) -/

inductive AuthOutcome where
  | allow
  | reject (message : String)
  deriving Repr, DecidableEq

/-- Outcome of the API-key store query `findFirst` for the presented
token: a record with its `isActive` flag, no record, or a thrown error. -/
inductive KeyLookup where
  | found (isActive : Bool)
  | missing
  | threw
  deriving Repr, DecidableEq

/-- JavaScript `a || b` on optional strings: absent and `""` are falsy. -/
def jsOrStr (a b : Option String) : Option String :=
  match a with
  | some s => if s = "" then b else some s
  | none => b

/-- Line 35: `header.startsWith('Bearer ') ? header.slice(7) : header`,
modelled on the character list of the header string. -/
def stripBearer (h : String) : String :=
  if "Bearer ".data.isPrefixOf h.data then ⟨h.data.drop 7⟩ else h

/-- Lines 34-35: `header = x-agntor-api-key || authorization`, then strip
a `Bearer ` prefix if present. -/
def extractToken (apiKeyHeader authHeader : Option String) : Option String :=
  match jsOrStr apiKeyHeader authHeader with
  | none => none
  | some h => some (stripBearer h)

/-- JavaScript truthiness of the optional admin key env var: absent and
`""` are falsy (`!ADMIN_API_KEY`). -/
def truthyStr (o : Option String) : Bool :=
  match o with
  | none => false
  | some s => !(s == "")

/-- The verifyApiKey middleware (src/src/server.ts lines 33-70).
`lookup` is the store's behaviour for the presented token and
`updateThrows` is whether the awaited `lastUsedAt` update throws; both
the lookup and the update run inside the same try block, so either
throwing lands in the catch and falls through to the 401 response. -/
def verifyApiKey (adminKey apiKeyHeader authHeader : Option String)
    (lookup : KeyLookup) (updateThrows : Bool) : AuthOutcome :=
  match extractToken apiKeyHeader authHeader with
  | none => if truthyStr adminKey then .reject "Missing API Key" else .allow
  | some t =>
    if t = "" then
      if truthyStr adminKey then .reject "Missing API Key" else .allow
    else if truthyStr adminKey = true ∧ adminKey = some t then .allow
    else
      match lookup with
      | .found true => if updateThrows then .reject "Invalid API Key" else .allow
      | .found false => .reject "Invalid API Key"
      | .missing => .reject "Invalid API Key"
      | .threw => .reject "Invalid API Key"

/-! ### Concrete records used by witnesses -/

/-- A live (non-killed) Gold agent with an unexpired certification. -/
def sampleAgent : AgentRecord :=
  { agentId := "agent-12345"
    auditLevel := "Gold"
    trustScore := 92
    organization := "Acme"
    metadata :=
      { name := "Sample Agent", description := "", capabilities := ["trade"],
        verified_domain := none }
    certification :=
      { certified_at := 1000, expires_at := 1000 + millisPerYear,
        certifier := "agntor.com", mva_level := 4 }
    health :=
      { uptime_percentage := 99, avg_latency_ms := 20, error_rate := 0,
        total_transactions := 10, last_active := 1000 }
    killSwitchActive := false
    constraints :=
      { max_op_value := 10000, allowed_mcp_servers := [],
        max_ops_per_hour := none, requires_x402_payment := none } }

/-- The same agent after kill-switch activation; its certification is
still unexpired. -/
def killedAgent : AgentRecord :=
  { sampleAgent with killSwitchActive := true }

/-- A raw payload whose upstream marks the agent certified and active. -/
def certifiedRaw : RawAgent :=
  { id := some "agent-12345"
    identity := none
    profile := none
    trust := some { score := some 92, level := some "Gold", certified := some true }
    status := some { active := some true } }

/-! ### Claim theorems -/

/-- C2: for every agent record and every time `now`, the certification
check returns true if and only if `certification.expires_at > now` and
`killSwitchActive` is false; since the right-hand side mentions only
those two fields, no other field of the record influences the result,
and the equivalence covers all four combinations of expired/not-expired
and killed/not-killed. -/
theorem isCertified_iff (a : AgentRecord) (now : Int) :
    isCertified a now = true ↔
      (a.certification.expires_at > now ∧ a.killSwitchActive = false) := by
  simp [isCertified]

/-- C3: the trust-score recommendation is `approve` when the upstream
score is at least 80, `review` when it is at least 60 and below 80, and
`reject` below 60 — exactly these inclusive cut points. -/
theorem recommendationOf_thresholds (s : Int) :
    (80 ≤ s → recommendationOf s = Recommendation.approve) ∧
    ((60 ≤ s ∧ s < 80) → recommendationOf s = Recommendation.review) ∧
    (s < 60 → recommendationOf s = Recommendation.reject) := by
  unfold recommendationOf
  refine ⟨fun h => ?_, fun h => ?_, fun h => ?_⟩
  · rw [if_pos (by omega : s ≥ 80)]
  · rw [if_neg (by omega : ¬ s ≥ 80), if_pos (by omega : s ≥ 60)]
  · rw [if_neg (by omega : ¬ s ≥ 80), if_neg (by omega : ¬ s ≥ 60)]

/-- Witness for C3 at the boundary scores 80, 100, 60, 79, 0 and 59. -/
theorem recommendationOf_thresholds_witness :
    recommendationOf 80 = Recommendation.approve ∧
    recommendationOf 100 = Recommendation.approve ∧
    recommendationOf 60 = Recommendation.review ∧
    recommendationOf 79 = Recommendation.review ∧
    recommendationOf 0 = Recommendation.reject ∧
    recommendationOf 59 = Recommendation.reject :=
  ⟨(recommendationOf_thresholds 80).1 (by decide),
   (recommendationOf_thresholds 100).1 (by decide),
   (recommendationOf_thresholds 60).2.1 ⟨by decide, by decide⟩,
   (recommendationOf_thresholds 79).2.1 ⟨by decide, by decide⟩,
   (recommendationOf_thresholds 0).2.2 (by decide),
   (recommendationOf_thresholds 59).2.2 (by decide)⟩

/-- C4: for every agent whose record has `killSwitchActive = true`,
issue_audit_ticket returns the structured kill-switch failure — a
constructor carrying no ticket — whatever the certification expiry,
validity argument, or issuer configuration. -/
theorem issue_audit_ticket_killSwitch_refused (cfg : TicketIssuerConfig)
    (now : Int) (agent : AgentRecord) (id : String) (validitySeconds : Option Int)
    (h : agent.killSwitchActive = true) :
    issue_audit_ticket cfg now (some agent) id validitySeconds =
      IssueResult.killSwitch id := by
  simp [issue_audit_ticket, h]

/-- Witness for C4: a killed agent whose certification is unexpired. -/
theorem issue_audit_ticket_killSwitch_refused_witness :
    issue_audit_ticket serverTicketIssuer 0 (some killedAgent) "agent-12345" none =
      IssueResult.killSwitch "agent-12345" :=
  issue_audit_ticket_killSwitch_refused serverTicketIssuer 0 killedAgent
    "agent-12345" none rfl

/-- C5: with no credential presented (both headers absent), verifyApiKey
allows the request if and only if no admin key is configured (absent or
empty env var); when an admin key is configured the request is rejected
with the 401 missing-key response. The store behaviour is irrelevant on
this path. -/
theorem verifyApiKey_noCredential (adminKey : Option String)
    (lookup : KeyLookup) (u : Bool) :
    (verifyApiKey adminKey none none lookup u = AuthOutcome.allow ↔
      truthyStr adminKey = false) ∧
    (truthyStr adminKey = true →
      verifyApiKey adminKey none none lookup u =
        AuthOutcome.reject "Missing API Key") := by
  unfold verifyApiKey extractToken jsOrStr
  cases h : truthyStr adminKey <;> simp [h]

/-- Witness for C5: allowed with no admin key, rejected with one. -/
theorem verifyApiKey_noCredential_witness :
    verifyApiKey none none none KeyLookup.missing false = AuthOutcome.allow ∧
    verifyApiKey (some "admin-key") none none KeyLookup.missing false =
      AuthOutcome.reject "Missing API Key" :=
  ⟨(verifyApiKey_noCredential none KeyLookup.missing false).1.mpr (by decide),
   (verifyApiKey_noCredential (some "admin-key") KeyLookup.missing false).2 (by decide)⟩

/-- C6: when a non-empty token that is not the admin key is presented
and the key-store lookup throws, verifyApiKey rejects with the 401
invalid-key response — the same outcome as when the key is not found or
found inactive (fail closed); the middleware returns an outcome instead
of propagating the error. -/
theorem verifyApiKey_storeError_failClosed
    (adminKey apiKeyHeader authHeader : Option String) (t : String) (u : Bool)
    (htok : extractToken apiKeyHeader authHeader = some t) (hne : t ≠ "")
    (hadm : ¬(truthyStr adminKey = true ∧ adminKey = some t)) :
    verifyApiKey adminKey apiKeyHeader authHeader KeyLookup.threw u =
      AuthOutcome.reject "Invalid API Key" ∧
    verifyApiKey adminKey apiKeyHeader authHeader KeyLookup.threw u =
      verifyApiKey adminKey apiKeyHeader authHeader KeyLookup.missing u ∧
    verifyApiKey adminKey apiKeyHeader authHeader KeyLookup.threw u =
      verifyApiKey adminKey apiKeyHeader authHeader (KeyLookup.found false) u := by
  unfold verifyApiKey
  rw [htok]
  simp [hne, hadm]

/-- Witness for C6: an admin key is configured, the presented token
differs from it, and the store throws. -/
theorem verifyApiKey_storeError_failClosed_witness :
    verifyApiKey (some "admin-key") (some "agk-2") none KeyLookup.threw false =
      AuthOutcome.reject "Invalid API Key" ∧
    verifyApiKey (some "admin-key") (some "agk-2") none KeyLookup.threw false =
      verifyApiKey (some "admin-key") (some "agk-2") none KeyLookup.missing false ∧
    verifyApiKey (some "admin-key") (some "agk-2") none KeyLookup.threw false =
      verifyApiKey (some "admin-key") (some "agk-2") none (KeyLookup.found false) false :=
  verifyApiKey_storeError_failClosed (some "admin-key") (some "agk-2") none
    "agk-2" false (by decide) (by decide) (by decide)

/-- C1: a request presenting a token that the store resolves to an
active key is allowed when the `lastUsedAt` update succeeds, but is
rejected with the 401 invalid-key response when that update throws: the
awaited update precedes `next()` inside the try block, so its failure
changes the authorization outcome, contrary to the claim and to the
code's own `asynchronously` comment. -/
theorem verifyApiKey_activeKey_updateFailure :
    verifyApiKey none (some "agk-1") none (KeyLookup.found true) false =
      AuthOutcome.allow ∧
    verifyApiKey none (some "agk-1") none (KeyLookup.found true) true =
      AuthOutcome.reject "Invalid API Key" := by
  exact ⟨by decide, by decide⟩

/-- C7: for any live (non-killed) agent, issuing with `validitySeconds`
omitted yields the default `expiresIn` of 300 and a ticket whose
effective lifetime is 300 seconds, and issuing with `validitySeconds = 60`
yields 60 for both, under the issuer configured in server.ts. -/
theorem issue_audit_ticket_lifetime (now : Int) (agent : AgentRecord) (id : String)
    (h : agent.killSwitchActive = false) :
    issue_audit_ticket serverTicketIssuer now (some agent) id none =
      IssueResult.issued
        (generateTicket serverTicketIssuer agent.agentId agent.auditLevel
          agent.constraints none now) id 300 ∧
    ticketLifetimeSeconds
        (generateTicket serverTicketIssuer agent.agentId agent.auditLevel
          agent.constraints none now) = 300 ∧
    issue_audit_ticket serverTicketIssuer now (some agent) id (some 60) =
      IssueResult.issued
        (generateTicket serverTicketIssuer agent.agentId agent.auditLevel
          agent.constraints (some 60) now) id 60 ∧
    ticketLifetimeSeconds
        (generateTicket serverTicketIssuer agent.agentId agent.auditLevel
          agent.constraints (some 60) now) = 60 := by
  refine ⟨?_, ?_, ?_, ?_⟩
  · simp [issue_audit_ticket, h, jsOrInt]
  · simp [ticketLifetimeSeconds, generateTicket, serverTicketIssuer]
  · simp [issue_audit_ticket, h, jsOrInt]
  · simp [ticketLifetimeSeconds, generateTicket, serverTicketIssuer]

/-- Witness for C7 at the sample live agent and time 0. -/
theorem issue_audit_ticket_lifetime_witness :
    issue_audit_ticket serverTicketIssuer 0 (some sampleAgent) "agent-12345" none =
      IssueResult.issued
        (generateTicket serverTicketIssuer sampleAgent.agentId sampleAgent.auditLevel
          sampleAgent.constraints none 0) "agent-12345" 300 ∧
    ticketLifetimeSeconds
        (generateTicket serverTicketIssuer sampleAgent.agentId sampleAgent.auditLevel
          sampleAgent.constraints none 0) = 300 ∧
    issue_audit_ticket serverTicketIssuer 0 (some sampleAgent) "agent-12345" (some 60) =
      IssueResult.issued
        (generateTicket serverTicketIssuer sampleAgent.agentId sampleAgent.auditLevel
          sampleAgent.constraints (some 60) 0) "agent-12345" 60 ∧
    ticketLifetimeSeconds
        (generateTicket serverTicketIssuer sampleAgent.agentId sampleAgent.auditLevel
          sampleAgent.constraints (some 60) 0) = 60 :=
  issue_audit_ticket_lifetime 0 sampleAgent "agent-12345" rfl

/-- C8: on a raw payload missing every nested substructure the
normalizer produces (without any exception path) the fully-defaulted
record: `auditLevel = "Bronze"`, `trustScore = 0`, empty capability set,
and every remaining field at its explicit documented default — the
fields the data model declares optional default to absence. -/
theorem normalizeAgent_allMissing (now : Int) (id : String) :
    normalizeAgent now id RawAgent.empty =
      { agentId := id
        auditLevel := "Bronze"
        trustScore := 0
        organization := "Unknown"
        metadata :=
          { name := "Unknown Agent", description := "", capabilities := [],
            verified_domain := none }
        certification :=
          { certified_at := 0, expires_at := 0, certifier := "agntor.com",
            mva_level := 1 }
        health :=
          { uptime_percentage := 0, avg_latency_ms := 0, error_rate := 0,
            total_transactions := 0, last_active := now }
        killSwitchActive := false
        constraints :=
          { max_op_value := 10000, allowed_mcp_servers := [],
            max_ops_per_hour := none, requires_x402_payment := none } } := rfl

/-- C9: when the upstream marks the agent certified, the normalized
record's `certified_at` is the normalization time and `expires_at` is
that time plus 365 days; otherwise both are 0. -/
theorem normalizeAgent_certification_timestamps (now : Int) (id : String)
    (raw : RawAgent) :
    (truthyBool (raw.trust.getD RawTrust.empty).certified = true →
      (normalizeAgent now id raw).certification.certified_at = now ∧
      (normalizeAgent now id raw).certification.expires_at =
        now + 365 * 24 * 60 * 60 * 1000) ∧
    (truthyBool (raw.trust.getD RawTrust.empty).certified = false →
      (normalizeAgent now id raw).certification.certified_at = 0 ∧
      (normalizeAgent now id raw).certification.expires_at = 0) := by
  unfold normalizeAgent millisPerYear
  constructor <;> intro h <;> simp [h]

/-- Witness for C9 at a certified raw payload and time 1000. -/
theorem normalizeAgent_certification_timestamps_witness :
    (normalizeAgent 1000 "agent-12345" certifiedRaw).certification.certified_at = 1000 ∧
    (normalizeAgent 1000 "agent-12345" certifiedRaw).certification.expires_at =
      1000 + 365 * 24 * 60 * 60 * 1000 :=
  (normalizeAgent_certification_timestamps 1000 "agent-12345" certifiedRaw).1 rfl

/-- C10: every normalized record's `expires_at` is 0 or the fetch time
plus 365 days, and checking certification at the fetch time itself (any
non-negative clock) reports certified exactly when the upstream marked
the agent certified and its `active` flag is not false. -/
theorem normalizeAgent_expiry_invariant (now : Int) (id : String) (raw : RawAgent)
    (h : 0 ≤ now) :
    ((normalizeAgent now id raw).certification.expires_at = 0 ∨
     (normalizeAgent now id raw).certification.expires_at =
       now + 365 * 24 * 60 * 60 * 1000) ∧
    isCertified (normalizeAgent now id raw) now =
      (truthyBool (raw.trust.getD RawTrust.empty).certified &&
       (raw.status.getD RawStatus.empty).active.getD true) := by
  unfold normalizeAgent isCertified millisPerYear
  cases hc : truthyBool (raw.trust.getD RawTrust.empty).certified <;>
    cases ha : (raw.status.getD RawStatus.empty).active.getD true
  all_goals simp [hc, ha]
  all_goals omega

/-- Witness for C10 at a certified, active raw payload and time 1000. -/
theorem normalizeAgent_expiry_invariant_witness :
    ((normalizeAgent 1000 "agent-12345" certifiedRaw).certification.expires_at = 0 ∨
     (normalizeAgent 1000 "agent-12345" certifiedRaw).certification.expires_at =
       1000 + 365 * 24 * 60 * 60 * 1000) ∧
    isCertified (normalizeAgent 1000 "agent-12345" certifiedRaw) 1000 =
      (truthyBool (certifiedRaw.trust.getD RawTrust.empty).certified &&
       (certifiedRaw.status.getD RawStatus.empty).active.getD true) :=
  normalizeAgent_expiry_invariant 1000 "agent-12345" certifiedRaw (by decide)

end Agntor
